import Mathlib

/-
Shallow embedding of the bhallstein/GenericTree repository:
  - GenericTree.h          (pointer-payload variant, class GenericTree<T>)
  - GenericTree_Nodeless.h (index-only variant, class GenericTree_Nodeless)
  - GenericTree_Referential.h (value-payload variant, class GenericTree_Referential<T>)
  - the Diatom serialization members (toDiatom / fromDiatom) of each.

Modelling conventions:
  - C++ int is Int; T* payload pointers (and T payload values) are Nat.
  - std::vector is List; push_back is ++ [x]; back/pop_back are getLast?/dropLast.
  - An _assert failure and undefined behaviour (out-of-range vector indexing)
    both abort the operation: operations return Option, none meaning the call
    does not complete.  The asserts compare a signed int against the unsigned
    nodes.size(), so a negative index also fails them; this is modelled as the
    conjunction 0 <= i and i.toNat < length.
  - The while loops of indexOfTopNode and the recursions of removeChildren and
    walk carry a fuel argument charged once per step / per depth level; fuel
    exhaustion returns none and corresponds exactly to the executions on which
    the C++ code diverges (cyclic parent links or cyclic children graphs).
    Acyclic chains and trees have depth at most nodes.length, so the fuel
    nodes.length + 1 used by the operations never runs out on executions that
    terminate in C++.
  - Diatom documents are modelled structurally: a table section is a list of
    (key, value) entries in insertion order, which is also the order Diatom's
    each() visits them.  The is_table / is_number asserts of fromDiatom are
    satisfied by construction in this typed model.
-/

/-- nodes[i] as read by the C++ code: undefined behaviour (modelled as none)
outside [0, nodes.size()). -/
def vecGet {α : Type} (ns : List α) (i : Int) : Option α :=
  if h : 0 ≤ i ∧ i.toNat < ns.length then some (ns.get ⟨i.toNat, h.2⟩) else none

/-- nodes[i] = a as written by the C++ code: undefined behaviour (none) when
out of range. -/
def vecSet {α : Type} (ns : List α) (i : Int) (a : α) : Option (List α) :=
  if 0 ≤ i ∧ i.toNat < ns.length then some (ns.set i.toNat a) else none

/-- The label "n" + std::to_string(i) produced by srlz_index. -/
def srlz_index (i : Nat) : String :=
  "n" ++ toString i

/-- Successive srlz_index labels paired with the values of a list, starting at
position i: the pattern of the serialization loops writing d[srlz_index(i++)]. -/
def labelEntries : Nat → List Int → List (String × Int)
  | _, [] => []
  | i, v :: rest => (srlz_index i, v) :: labelEntries (i + 1) rest

/-- One step of the removeChildren recursion body below the top call: for each
child c of the worklist, recurse into c (rc), then push c; returns the indices
pushed onto the free list in order.  rc is the recursion at one less fuel. -/
def pushesList (rc : Int → Option (List Int)) : List Int → Option (List Int)
  | [] => some []
  | c :: rest =>
    match rc c with
    | none => none
    | some lc =>
      match pushesList rc rest with
      | none => none
      | some lr => some (lc ++ (c :: lr))

/-- The removeChildren recursion, generic over the per-variant bounds-checked
children accessor.  Fuel is charged once per depth level (Nat.rec so that the
kernel can evaluate it); none on exhaustion, i.e. on a cyclic children graph,
where the C++ recursion never returns. -/
def removeChildrenFuel (childrenOf : Int → Option (List Int)) : Nat → Int → Option (List Int) :=
  Nat.rec (motive := fun _ => Int → Option (List Int))
    (fun _ => none)
    (fun _ ih i =>
      match childrenOf i with
      | none => none
      | some cs => pushesList ih cs)

/-- The children-loop of walk, generic over the visit type: walk each child in
order with w (the walk at one less fuel), concatenating visits; the Bool is
false as soon as a sub-walk aborts (crash or fuel exhaustion). -/
def walkSeq {α : Type} (w : Int → List α × Bool) : List Int → List α × Bool
  | [] => ([], true)
  | c :: rest =>
    let rc := w c
    if rc.2 then
      let rr := walkSeq w rest
      (rc.1 ++ rr.1, rr.2)
    else (rc.1, false)

/-! ## GenericTree (pointer-payload variant, GenericTree.h) -/

/-- struct NodeInfo { T *node; int index_of_parent; std::vector<int> children; } -/
structure GenericTree.NodeInfo where
  node : Nat
  index_of_parent : Int
  children : List Int
deriving Repr, DecidableEq

/-- The protected state of class GenericTree<T>: nodes and free_list. -/
structure GenericTree where
  nodes : List GenericTree.NodeInfo
  free_list : List Int
deriving Repr, DecidableEq

namespace GenericTree

/-- bool isEmpty() { return nodes.size() == free_list.size(); } -/
def isEmpty (t : GenericTree) : Bool :=
  t.nodes.length == t.free_list.length

/-- bool indexIsInFreeList(int ind): linear scan of free_list for ind. -/
def indexIsInFreeList (t : GenericTree) (ind : Int) : Bool :=
  t.free_list.contains ind

/-- int indexOfNode(T &x): first slot whose stored pointer equals the address
of x (freed slots participate: their stale pointers are still compared);
NOT_FOUND = -1 when absent. -/
def indexOfNode (t : GenericTree) (x : Nat) : Int :=
  match t.nodes.findIdx? (fun n => n.node == x) with
  | some i => (i : Int)
  | none => -1

/-- bool nodeIsPresent(T &x): in the nodes array and not on the free list. -/
def nodeIsPresent (t : GenericTree) (x : Nat) : Bool :=
  let ind := t.indexOfNode x
  if ind = -1 then false else !(t.indexIsInFreeList ind)

/-- The first while loop of indexOfTopNode: starting from i, advance past
indices on the free list.  The loop always exits within free_list.length + 1
steps (the fuel its caller supplies), since that many consecutive indices
cannot all be on the free list. -/
def scanPastFree (t : GenericTree) : Nat → Int → Option Int
  | 0, _ => none
  | fuel + 1, i => if t.indexIsInFreeList i then t.scanPastFree fuel (i + 1) else some i

/-- The second while loop of indexOfTopNode: follow index_of_parent links until
a slot with parent NOT_FOUND.  The C++ loop diverges on a parent cycle and
reads out of range on a bad parent index; both are none here. -/
def chaseParent (t : GenericTree) : Nat → Int → Option Int
  | 0, _ => none
  | fuel + 1, i =>
    match vecGet t.nodes i with
    | none => none
    | some n =>
      if n.index_of_parent = -1 then some i else t.chaseParent fuel n.index_of_parent

/-- int indexOfTopNode(): -1 when empty, else scan past freed indices from 0,
then chase parent links upward. -/
def indexOfTopNode (t : GenericTree) : Option Int :=
  if t.isEmpty then some (-1)
  else
    match t.scanPastFree (t.free_list.length + 1) 0 with
    | none => none
    | some i0 => t.chaseParent (t.nodes.length + 1) i0

/-- The slot-allocation block of addNode: pop the free list's back entry
(asserting it is within nodes.size(), which also rejects negative entries by
the signed/unsigned comparison) and overwrite that slot, or append a new slot.
Returns the index used and the updated tree. -/
def addNode_alloc (t : GenericTree) (ni : NodeInfo) : Option (Int × GenericTree) :=
  match t.free_list.getLast? with
  | some ind =>
    if 0 ≤ ind ∧ ind.toNat < t.nodes.length then
      some (ind, ⟨t.nodes.set ind.toNat ni, t.free_list.dropLast⟩)
    else none
  | none => some ((t.nodes.length : Int), ⟨t.nodes ++ [ni], t.free_list⟩)

/-- The linking block of addNode, run after allocation: either append the new
index to the parent's children, or (parentless insertion into a previously
non-empty tree) compute indexOfTopNode on the POST-allocation state, append it
to the new node's children and rewrite its parent.  Mutates only nodes, never
free_list. -/
def addNode_link (t1 : GenericTree) (ind ip : Int) (hasParent was_empty : Bool) :
    Option GenericTree :=
  if hasParent then
    match vecGet t1.nodes ip with
    | none => none
    | some pn =>
      match vecSet t1.nodes ip { pn with children := pn.children ++ [ind] } with
      | none => none
      | some ns => some ⟨ns, t1.free_list⟩
  else if was_empty then some t1
  else
    match t1.indexOfTopNode with
    | none => none
    | some i_top =>
      if i_top = -1 then some t1
      else
        match vecGet t1.nodes ind with
        | none => none
        | some nn =>
          match vecSet t1.nodes ind { nn with children := nn.children ++ [i_top] } with
          | none => none
          | some ns =>
            match vecGet ns i_top with
            | none => none
            | some tn =>
              match vecSet ns i_top { tn with index_of_parent := ind } with
              | none => none
              | some ns2 => some ⟨ns2, t1.free_list⟩

/-- The body of int addNode(T &x, T *parent) after the opening
assert(!nodeIsPresent(x)): record was_empty, resolve the parent pointer to an
index (asserting it is found), allocate, link. -/
def addNode_postCheck (t : GenericTree) (x : Nat) (parent : Option Nat) :
    Option (Int × GenericTree) :=
  match (match parent with
         | none => some (-1 : Int)
         | some p => if t.indexOfNode p = -1 then none else some (t.indexOfNode p)) with
  | none => none
  | some ip =>
    match addNode_alloc t ⟨x, ip, []⟩ with
    | none => none
    | some (ind, t1) =>
      match addNode_link t1 ind ip parent.isSome t.isEmpty with
      | none => none
      | some t2 => some (ind, t2)

/-- int addNode(T &x, T *parent): asserts the payload object is not already a
live node (by address), then allocates and links. -/
def addNode (t : GenericTree) (x : Nat) (parent : Option Nat) : Option (Int × GenericTree) :=
  if t.nodeIsPresent x then none else addNode_postCheck t x parent

/-- void removeChild_ForNodeAtIndex(int parent_ind, int child_ind): bounds
asserts, then a linear scan of the parent's children for child_ind; asserts the
scan found it (structural corruption otherwise) and erases it. -/
def removeChild_ForNodeAtIndex (t : GenericTree) (parent_ind child_ind : Int) :
    Option GenericTree :=
  if (0 ≤ parent_ind ∧ parent_ind.toNat < t.nodes.length) ∧
      (0 ≤ child_ind ∧ child_ind.toNat < t.nodes.length) then
    match vecGet t.nodes parent_ind with
    | none => none
    | some pn =>
      if pn.children.contains child_ind then
        match vecSet t.nodes parent_ind { pn with children := pn.children.erase child_ind } with
        | none => none
        | some ns => some ⟨ns, t.free_list⟩
      else none
  else none

/-- The bounds-checked children read at the head of removeChildren
(assert(i < nodes.size()) then the range-for source). -/
def childrenAt (t : GenericTree) (i : Int) : Option (List Int) :=
  if h : 0 ≤ i ∧ i.toNat < t.nodes.length then
    some (t.nodes.get ⟨i.toNat, h.2⟩).children
  else none

/-- void removeNode(T &x, bool recursivelyRemoveChildren): locate x by address
(asserting it is found), push its index onto the free list, unlink it from its
parent's children if it had a parent, and recursively push every descendant
(without unlinking them individually) when requested. -/
def removeNode (t : GenericTree) (x : Nat) (recursive : Bool) : Option GenericTree :=
  let i := t.indexOfNode x
  if i = -1 then none
  else
    match vecGet t.nodes i with
    | none => none
    | some n =>
      let t1 : GenericTree := ⟨t.nodes, t.free_list ++ [i]⟩
      let step2 : Option GenericTree :=
        if n.index_of_parent = -1 then some t1
        else t1.removeChild_ForNodeAtIndex n.index_of_parent i
      match step2 with
      | none => none
      | some t2 =>
        if recursive then
          match removeChildrenFuel t2.childrenAt (t2.nodes.length + 1) i with
          | none => none
          | some pushes => some ⟨t2.nodes, t2.free_list ++ pushes⟩
        else some t2

/-- walk(f, i = -2): substitute indexOfTopNode for the default -2, return if
NOT_FOUND, otherwise visit (payload pointer, index) and recurse into the
children in order.  Returns the visits in order and whether the walk completed
(false on out-of-range access or fuel exhaustion). -/
def walk (t : GenericTree) : Nat → Int → List (Nat × Int) × Bool :=
  Nat.rec (motive := fun _ => Int → List (Nat × Int) × Bool)
    (fun _ => ([], false))
    (fun _ ih i =>
      match (if i = -2 then t.indexOfTopNode else some i) with
      | none => ([], false)
      | some j =>
        if j = -1 then ([], true)
        else
          match vecGet t.nodes j with
          | none => ([], false)
          | some n =>
            let r := walkSeq ih n.children
            ((n.node, j) :: r.1, r.2))

/-- The number of live slots (in range, not on the free list) whose parent is
NOT_FOUND: the spec's invariant 3 counts these and requires at most one, and
exactly one when the tree is non-empty. -/
def liveRootCount (t : GenericTree) : Nat :=
  ((List.range t.nodes.length).filter
    (fun (i : Nat) =>
      !(t.indexIsInFreeList (Int.ofNat i)) &&
      match t.nodes.get? i with
      | some n => n.index_of_parent == -1
      | none => false)).length

end GenericTree

/-! ## GenericTree_Nodeless (index-only variant, GenericTree_Nodeless.h) -/

/-- struct Node { int parent; std::vector<int> children; } -/
structure GenericTree_Nodeless.Node where
  parent : Int
  children : List Int
deriving Repr, DecidableEq

/-- The protected state of class GenericTree_Nodeless. -/
structure GenericTree_Nodeless where
  nodes : List GenericTree_Nodeless.Node
  free_list : List Int
deriving Repr, DecidableEq

namespace GenericTree_Nodeless

/-- bool isEmpty() { return nodes.size() == free_list.size(); } -/
def isEmpty (t : GenericTree_Nodeless) : Bool :=
  t.nodes.length == t.free_list.length

/-- bool indexIsInFreeList(int i): linear scan of free_list. -/
def indexIsInFreeList (t : GenericTree_Nodeless) (i : Int) : Bool :=
  t.free_list.contains i

/-- The first while loop of indexOfTopNode (see GenericTree.scanPastFree). -/
def scanPastFree (t : GenericTree_Nodeless) : Nat → Int → Option Int
  | 0, _ => none
  | fuel + 1, i => if t.indexIsInFreeList i then t.scanPastFree fuel (i + 1) else some i

/-- The second while loop of indexOfTopNode: follow parent links upward. -/
def chaseParent (t : GenericTree_Nodeless) : Nat → Int → Option Int
  | 0, _ => none
  | fuel + 1, i =>
    match vecGet t.nodes i with
    | none => none
    | some n => if n.parent = -1 then some i else t.chaseParent fuel n.parent

/-- int indexOfTopNode(). -/
def indexOfTopNode (t : GenericTree_Nodeless) : Option Int :=
  if t.isEmpty then some (-1)
  else
    match t.scanPastFree (t.free_list.length + 1) 0 with
    | none => none
    | some i0 => t.chaseParent (t.nodes.length + 1) i0

/-- int addNode(int parent): unlike GenericTree<T>::addNode, the previous top
node is recorded BEFORE the new node occupies a slot, and the popped free-list
entry is NOT bounds-asserted (an out-of-range entry is undefined behaviour at
nodes[i] = node, modelled by vecSet returning none). -/
def addNode (t : GenericTree_Nodeless) (parent : Int) : Option (Int × GenericTree_Nodeless) :=
  let node : Node := ⟨parent, []⟩
  let was_empty := t.isEmpty
  let prevTopOpt : Option Int :=
    if was_empty then some (-1) else t.indexOfTopNode
  match prevTopOpt with
  | none => none
  | some i__prev_top =>
    let allocated : Option (Int × GenericTree_Nodeless) :=
      match t.free_list.getLast? with
      | some b =>
        match vecSet t.nodes b node with
        | none => none
        | some ns => some (b, ⟨ns, t.free_list.dropLast⟩)
      | none => some ((t.nodes.length : Int), ⟨t.nodes ++ [node], t.free_list⟩)
    match allocated with
    | none => none
    | some (i, t1) =>
      if parent = -1 then
        if was_empty then some (i, t1)
        else
          match vecGet t1.nodes i with
          | none => none
          | some ni =>
            match vecSet t1.nodes i { ni with children := ni.children ++ [i__prev_top] } with
            | none => none
            | some ns =>
              match vecGet ns i__prev_top with
              | none => none
              | some tn =>
                match vecSet ns i__prev_top { tn with parent := i } with
                | none => none
                | some ns2 => some (i, ⟨ns2, t1.free_list⟩)
      else
        match vecGet t1.nodes parent with
        | none => none
        | some pn =>
          match vecSet t1.nodes parent { pn with children := pn.children ++ [i] } with
          | none => none
          | some ns => some (i, ⟨ns, t1.free_list⟩)

/-- void unmakeChild(int parent, int child_to_remove): asserts parent > 0 and
child_to_remove > 0 (strictly: slot 0 is rejected) and both below
nodes.size(); then scans the parent's children for the child and erases it IF
found — when absent it silently does nothing. -/
def unmakeChild (t : GenericTree_Nodeless) (parent child_to_remove : Int) :
    Option GenericTree_Nodeless :=
  if (0 < parent ∧ parent.toNat < t.nodes.length) ∧
      (0 < child_to_remove ∧ child_to_remove.toNat < t.nodes.length) then
    match vecGet t.nodes parent with
    | none => none
    | some pn =>
      let children2 :=
        if pn.children.contains child_to_remove then pn.children.erase child_to_remove
        else pn.children
      match vecSet t.nodes parent { pn with children := children2 } with
      | none => none
      | some ns => some ⟨ns, t.free_list⟩
  else none

/-- The bounds-checked children read at the head of removeChildren. -/
def childrenAt (t : GenericTree_Nodeless) (i : Int) : Option (List Int) :=
  if h : 0 ≤ i ∧ i.toNat < t.nodes.length then
    some (t.nodes.get ⟨i.toNat, h.2⟩).children
  else none

/-- void removeNode(int i, bool recursively_remove_children): asserts
i > 0 (strictly — live slot 0 is rejected) and i < nodes.size(); pushes i onto
the free list, unlinks from the parent when there is one, and recursively
pushes descendants when requested.  Note the assert does not consult the free
list: an in-range freed index passes. -/
def removeNode (t : GenericTree_Nodeless) (i : Int) (recursive : Bool) :
    Option GenericTree_Nodeless :=
  if 0 < i ∧ i.toNat < t.nodes.length then
    match vecGet t.nodes i with
    | none => none
    | some n =>
      let t1 : GenericTree_Nodeless := ⟨t.nodes, t.free_list ++ [i]⟩
      let step2 : Option GenericTree_Nodeless :=
        if n.parent = -1 then some t1 else t1.unmakeChild n.parent i
      match step2 with
      | none => none
      | some t2 =>
        if recursive then
          match removeChildrenFuel t2.childrenAt (t2.nodes.length + 1) i with
          | none => none
          | some pushes => some ⟨t2.nodes, t2.free_list ++ pushes⟩
        else some t2
  else none

/-- walk(f, i = -2) of GenericTree_Nodeless: NOTE the i == -1 early return is
tested BEFORE the default -2 is replaced by indexOfTopNode(), so the -1
returned for an empty tree is NOT caught: f(i) is then invoked with i = -1 and
nodes[-1].children is read.  Visits are the indices passed to f; the Bool is
false when the walk aborts (out-of-range access or fuel exhaustion). -/
def walk (t : GenericTree_Nodeless) : Nat → Int → List Int × Bool :=
  Nat.rec (motive := fun _ => Int → List Int × Bool)
    (fun _ => ([], false))
    (fun _ ih i =>
      if i = -1 then ([], true)
      else
        match (if i = -2 then t.indexOfTopNode else some i) with
        | none => ([], false)
        | some j =>
          match vecGet t.nodes j with
          | none => ([j], false)
          | some n =>
            let r := walkSeq ih n.children
            (j :: r.1, r.2))

end GenericTree_Nodeless

/-! ## GenericTree_Referential (value-payload variant, GenericTree_Referential.h) -/

/-- struct NodeInfo { T node; int index_of_parent; std::vector<int> children; } -/
structure GenericTree_Referential.NodeInfo where
  node : Nat
  index_of_parent : Int
  children : List Int
deriving Repr, DecidableEq

/-- The protected state of class GenericTree_Referential<T>. -/
structure GenericTree_Referential where
  nodes : List GenericTree_Referential.NodeInfo
  free_list : List Int
deriving Repr, DecidableEq

namespace GenericTree_Referential

/-- void removeChild_ForNodeAtIndex(int parent_ind, int child_ind): same as
the GenericTree<T> version — asserts the child is found before erasing. -/
def removeChild_ForNodeAtIndex (t : GenericTree_Referential) (parent_ind child_ind : Int) :
    Option GenericTree_Referential :=
  if (0 ≤ parent_ind ∧ parent_ind.toNat < t.nodes.length) ∧
      (0 ≤ child_ind ∧ child_ind.toNat < t.nodes.length) then
    match vecGet t.nodes parent_ind with
    | none => none
    | some pn =>
      if pn.children.contains child_ind then
        match vecSet t.nodes parent_ind { pn with children := pn.children.erase child_ind } with
        | none => none
        | some ns => some ⟨ns, t.free_list⟩
      else none
    else none

/-- The bounds-checked children read at the head of removeChildren. -/
def childrenAt (t : GenericTree_Referential) (i : Int) : Option (List Int) :=
  if h : 0 ≤ i ∧ i.toNat < t.nodes.length then
    some (t.nodes.get ⟨i.toNat, h.2⟩).children
  else none

/-- void removeNode(int i, bool recursivelyRemoveChildren): performs NO
precondition check at all — it reads nodes[i] directly (undefined behaviour
out of range), pushes i, unlinks from the parent, recurses when asked.  A
freed in-range index is accepted and double-freed. -/
def removeNode (t : GenericTree_Referential) (i : Int) (recursive : Bool) :
    Option GenericTree_Referential :=
  match vecGet t.nodes i with
  | none => none
  | some n =>
    let t1 : GenericTree_Referential := ⟨t.nodes, t.free_list ++ [i]⟩
    let step2 : Option GenericTree_Referential :=
      if n.index_of_parent = -1 then some t1
      else t1.removeChild_ForNodeAtIndex n.index_of_parent i
    match step2 with
    | none => none
    | some t2 =>
      if recursive then
        match removeChildrenFuel t2.childrenAt (t2.nodes.length + 1) i with
        | none => none
        | some pushes => some ⟨t2.nodes, t2.free_list ++ pushes⟩
      else some t2

end GenericTree_Referential

/-! ## Serialization documents -/

/-- One "tree" record of GenericTree<T>::toDiatom: node_orig_ind (position of
the payload object in the owner's vector), parent_gt_ind, and the
child_gt_inds sub-table (labelled entries). -/
structure GTDocNode where
  node_orig_ind : Int
  parent_gt_ind : Int
  child_gt_inds : List (String × Int)
deriving Repr, DecidableEq

/-- The document produced by GenericTree<T>::toDiatom: a "tree" table of
labelled node records and a "free_list" table of labelled entries. -/
structure GTDoc where
  tree : List (String × GTDocNode)
  free_list : List (String × Int)
deriving Repr, DecidableEq

/-- One "tree" record of GenericTree_Nodeless::toDiatom: fields i, i__parent
and the i__children sub-table. -/
structure NodelessDocNode where
  i : Int
  i__parent : Int
  i__children : List (String × Int)
deriving Repr, DecidableEq

/-- The document produced by GenericTree_Nodeless::toDiatom. -/
structure NodelessDoc where
  tree : List (String × NodelessDocNode)
  free_list : List (String × Int)
deriving Repr, DecidableEq

namespace GenericTree

/-- int indexOfOriginalNodeInVector(T *node, std::vector<T*> &vec): position
of the payload pointer in the owner's vector, NOT_FOUND = -1. -/
def indexOfOriginalNodeInVector (node : Nat) (vec : List Nat) : Int :=
  match vec.findIdx? (fun v => v == node) with
  | some i => (i : Int)
  | none => -1

/-- The "tree" loop of GenericTree<T>::toDiatom, from storage position i on:
each slot (live or freed) is emitted at its storage-position label; asserts
every slot's payload pointer is found in the owner's vector. -/
def toDiatomTree (vec : List Nat) : Nat → List NodeInfo → Option (List (String × GTDocNode))
  | _, [] => some []
  | i, n :: rest =>
    let oi := indexOfOriginalNodeInVector n.node vec
    if oi = -1 then none
    else
      match toDiatomTree vec (i + 1) rest with
      | none => none
      | some r =>
        some ((srlz_index i, ⟨oi, n.index_of_parent, labelEntries 0 n.children⟩) :: r)

/-- Diatom toDiatom(std::vector<T*> &original_nodes): emit every slot at its
storage position, then the free list in order (each entry's VALUE is the freed
slot index, unlike the Nodeless variant below). -/
def toDiatom (t : GenericTree) (original_nodes : List Nat) : Option GTDoc :=
  match toDiatomTree original_nodes 0 t.nodes with
  | none => none
  | some tr => some ⟨tr, labelEntries 0 t.free_list⟩

/-- The "tree" each() loop of GenericTree<T>::fromDiatom: for each record in
document order, assert the external position is within the caller's vector and
push a rebuilt NodeInfo. -/
def fromDiatomNodes (ext_nodes : List Nat) :
    List (String × GTDocNode) → List NodeInfo → Option (List NodeInfo)
  | [], acc => some acc
  | e :: rest, acc =>
    let dn := e.2
    if h : 0 ≤ dn.node_orig_ind ∧ dn.node_orig_ind.toNat < ext_nodes.length then
      fromDiatomNodes ext_nodes rest
        (acc ++ [⟨ext_nodes.get ⟨dn.node_orig_ind.toNat, h.2⟩, dn.parent_gt_ind,
                  dn.child_gt_inds.map (fun c => c.2)⟩])
    else none

/-- void fromDiatom(Diatom &d, std::vector<T*> &ext_nodes): reset, rebuild the
nodes in document order, then push every free_list value — with NO check that
it is within the rebuilt array's bounds. -/
def fromDiatom (d : GTDoc) (ext_nodes : List Nat) : Option GenericTree :=
  match fromDiatomNodes ext_nodes d.tree [] with
  | none => none
  | some ns => some ⟨ns, d.free_list.map (fun e => e.2)⟩

end GenericTree

namespace GenericTree_Nodeless

/-- The "tree" loop of GenericTree_Nodeless::toDiatom, from position i on. -/
def toDiatomTree : Nat → List Node → List (String × NodelessDocNode)
  | _, [] => []
  | i, n :: rest =>
    (srlz_index i, ⟨(i : Int), n.parent, labelEntries 0 n.children⟩) :: toDiatomTree (i + 1) rest

/-- Diatom toDiatom() of GenericTree_Nodeless.  The free-list loop is
  for (int i=0; i < free_list.size(); ++i)
    d["free_list"][srlz_index(i)] = (double) i;
— the VALUE written is the loop counter i, not free_list[i]. -/
def toDiatom (t : GenericTree_Nodeless) : NodelessDoc :=
  ⟨toDiatomTree 0 t.nodes,
   (List.range t.free_list.length).map (fun i => (srlz_index i, (i : Int)))⟩

/-- The "tree" each() loop of GenericTree_Nodeless::fromDiatom: for each
record, read its i field, grow the nodes vector to i + 1 when needed
(std::vector::resize value-initializes the filler: parent 0, no children) and
write the rebuilt node at position i.  A negative i makes nodes.size() <= i
true by the signed/unsigned conversion and the resize then fails allocation
(none). -/
def fromDiatomNodes : List (String × NodelessDocNode) → List Node → Option (List Node)
  | [], ns => some ns
  | e :: rest, ns =>
    let item := e.2
    if item.i < 0 then none
    else
      let ns1 :=
        if ns.length ≤ item.i.toNat then
          ns ++ List.replicate (item.i.toNat + 1 - ns.length) (⟨0, []⟩ : Node)
        else ns
      fromDiatomNodes rest
        (ns1.set item.i.toNat ⟨item.i__parent, item.i__children.map (fun c => c.2)⟩)

/-- void fromDiatom(Diatom &d): reset, rebuild nodes, then push every
free_list value (again with no bounds validation). -/
def fromDiatom (d : NodelessDoc) : Option GenericTree_Nodeless :=
  match fromDiatomNodes d.tree [] with
  | none => none
  | some ns => some ⟨ns, d.free_list.map (fun e => e.2)⟩

end GenericTree_Nodeless

/-! ## Concrete states used by the claim theorems -/

/-- The spec §8 worked-scenario state of the Nodeless variant, exactly as
reached by: add root 0, add 1 and 2 under 0, add 3 under 2, add 4 under 3,
add 5 under 2, then removeNode(3, true).  Free list [3, 4] in discovery
order; slots 3 and 4 hold stale content. -/
def tN : GenericTree_Nodeless :=
  ⟨[⟨-1, [1, 2]⟩, ⟨0, []⟩, ⟨0, [5]⟩, ⟨2, [4]⟩, ⟨3, []⟩, ⟨2, []⟩], [3, 4]⟩

/-- The same worked-scenario state for GenericTree<T>, with payload objects at
addresses 100..105. -/
def tG : GenericTree :=
  ⟨[⟨100, -1, [1, 2]⟩, ⟨101, 0, []⟩, ⟨102, 0, [5]⟩, ⟨103, 2, [4]⟩, ⟨104, 3, []⟩, ⟨105, 2, []⟩],
   [3, 4]⟩

/-- The owner's vector of payload objects for tG (all six node objects, plus a
seventh unused object, as in the repository's example program). -/
def vecG : List Nat := [100, 101, 102, 103, 104, 105, 106]

/-- A root (address 20) with two live childless children (21 at slot 1, 22 at
slot 2) and an empty free list: the starting state of the LIFO-reuse
witness. -/
def tW : GenericTree := ⟨[⟨20, -1, [1, 2]⟩, ⟨21, 0, []⟩, ⟨22, 0, []⟩], []⟩

/-- tW after removeNode(21, false): slot 1 freed. -/
def tW1 : GenericTree := ⟨[⟨20, -1, [2]⟩, ⟨21, 0, []⟩, ⟨22, 0, []⟩], [1]⟩

/-- tW1 after removeNode(22, false): free list [1, 2]. -/
def tW2 : GenericTree := ⟨[⟨20, -1, []⟩, ⟨21, 0, []⟩, ⟨22, 0, []⟩], [1, 2]⟩

/-- tW2 after addNode(23, nullptr): slot 2 (the back of the free list) is
reused and the tree is rebased under it. -/
def tW3 : GenericTree := ⟨[⟨20, 2, []⟩, ⟨21, 0, []⟩, ⟨23, -1, [0]⟩], [1]⟩

/-- tW3 after addNode(24, nullptr): slot 1 is reused; free list empty again. -/
def tW4 : GenericTree := ⟨[⟨20, 2, []⟩, ⟨24, -1, [2]⟩, ⟨23, 1, [0]⟩], []⟩

/-- A root (address 30) whose former child (address 31, slot 1) has been
removed non-recursively: slot 1 is on the free list and holds the stale
pointer to object 31. -/
def tC10 : GenericTree := ⟨[⟨30, -1, []⟩, ⟨31, 0, []⟩], [1]⟩

/-- A corrupt GenericTree state: slot 1 is live with parent 0, but slot 0's
children list does not contain 1 (the back-reference expected by the unlink
step is absent). -/
def tMissingLink : GenericTree := ⟨[⟨40, -1, []⟩, ⟨41, 0, []⟩], []⟩

/-- A corrupt Nodeless state of the same shape, placed so that the parent sits
at slot 1 (unmakeChild rejects parents at slot 0 outright): slot 2 is live
with parent 1, but slot 1's children list is empty. -/
def tMissingLinkN : GenericTree_Nodeless := ⟨[⟨-1, [1]⟩, ⟨0, []⟩, ⟨1, []⟩], []⟩

/-- A document whose single node record is valid but whose free_list entry 99
is far outside the bounds of the one-slot node array it decodes to. -/
def dOOR : GTDoc := ⟨[(srlz_index 0, ⟨0, -1, []⟩)], [(srlz_index 0, 99)]⟩

/-- The owner vector for decoding dOOR. -/
def extOOR : List Nat := [100]

/-- The tree dOOR decodes to: one live slot, free list [99]. -/
def tOOR : GenericTree := ⟨[⟨100, -1, []⟩], [99]⟩

/-! ## Helper lemmas -/

theorem vecGet_bounds {α : Type} {ns : List α} {i : Int} {a : α}
    (h : vecGet ns i = some a) : 0 ≤ i ∧ i.toNat < ns.length := by
  unfold vecGet at h
  split at h
  · assumption
  · exact absurd h (by simp)

theorem list_set_get_self {α : Type} :
    ∀ (l : List α) (n : Nat) (h : n < l.length), l.set n (l.get ⟨n, h⟩) = l
  | _ :: _, 0, _ => rfl
  | a :: l, n + 1, h => congrArg (a :: ·) (list_set_get_self l n (Nat.lt_of_succ_lt_succ h))

theorem GenericTree.removeChild_free {t t2 : GenericTree} {p c : Int}
    (h : t.removeChild_ForNodeAtIndex p c = some t2) :
    t2.free_list = t.free_list := by
  unfold GenericTree.removeChild_ForNodeAtIndex at h
  repeat' split at h
  all_goals simp_all
  all_goals (cases h; rfl)

theorem GenericTree.addNode_link_free {t1 t2 : GenericTree} {ind ip : Int} {hp we : Bool}
    (h : GenericTree.addNode_link t1 ind ip hp we = some t2) :
    t2.free_list = t1.free_list := by
  unfold GenericTree.addNode_link at h
  repeat' split at h
  all_goals simp_all
  all_goals (cases h; rfl)

theorem GenericTree.removeNode_false_free {t t2 : GenericTree} {x : Nat}
    (h : t.removeNode x false = some t2) :
    t2.free_list = t.free_list ++ [t.indexOfNode x] := by
  unfold GenericTree.removeNode at h
  simp only at h
  split at h
  · exact absurd h (by simp)
  · split at h
    · exact absurd h (by simp)
    · split at h
      · exact absurd h (by simp)
      · next t2' hstep =>
        simp only [if_neg, Bool.false_eq_true, if_false] at h
        cases h
        split at hstep
        · cases hstep; rfl
        · exact GenericTree.removeChild_free hstep

theorem GenericTree.addNode_alloc_pop {t : GenericTree} {ni : GenericTree.NodeInfo}
    {fl : List Int} {b ind : Int} {t1 : GenericTree}
    (hfl : t.free_list = fl ++ [b]) (h : GenericTree.addNode_alloc t ni = some (ind, t1)) :
    ind = b ∧ t1.free_list = fl := by
  unfold GenericTree.addNode_alloc at h
  rw [hfl, List.getLast?_concat] at h
  try dsimp only at h
  split at h
  · simp only [Option.some.injEq, Prod.mk.injEq] at h
    obtain ⟨h1, h2⟩ := h
    exact ⟨h1.symm, by rw [← h2]; simp [List.dropLast_concat]⟩
  · exact absurd h (by simp)

theorem GenericTree.addNode_alloc_fresh {t : GenericTree} {ni : GenericTree.NodeInfo}
    {ind : Int} {t1 : GenericTree}
    (hfl : t.free_list = []) (h : GenericTree.addNode_alloc t ni = some (ind, t1)) :
    ind = (t.nodes.length : Int) := by
  unfold GenericTree.addNode_alloc at h
  rw [hfl] at h
  simp only [List.getLast?_nil] at h
  try dsimp only at h
  simp only [Option.some.injEq, Prod.mk.injEq] at h
  exact h.1.symm

theorem GenericTree.addNode_postCheck_alloc {t t2 : GenericTree} {x : Nat} {p : Option Nat}
    {ind : Int} (h : GenericTree.addNode_postCheck t x p = some (ind, t2)) :
    ∃ ip t1, GenericTree.addNode_alloc t ⟨x, ip, []⟩ = some (ind, t1) ∧
      t2.free_list = t1.free_list := by
  unfold GenericTree.addNode_postCheck at h
  split at h
  · exact absurd h (by simp)
  · next ip hip =>
    split at h
    · exact absurd h (by simp)
    · next ind1 t1 halloc =>
      split at h
      · exact absurd h (by simp)
      · next t2' hlink =>
        cases h
        exact ⟨ip, t1, halloc, GenericTree.addNode_link_free hlink⟩

theorem GenericTree.addNode_pop {t t2 : GenericTree} {x : Nat} {p : Option Nat}
    {fl : List Int} {b ind : Int}
    (hfl : t.free_list = fl ++ [b]) (h : t.addNode x p = some (ind, t2)) :
    ind = b ∧ t2.free_list = fl := by
  unfold GenericTree.addNode at h
  split at h
  · exact absurd h (by simp)
  · obtain ⟨ip, t1, halloc, hfree⟩ := GenericTree.addNode_postCheck_alloc h
    obtain ⟨h1, h2⟩ := GenericTree.addNode_alloc_pop hfl halloc
    exact ⟨h1, by rw [hfree, h2]⟩

theorem GenericTree.addNode_freshSlot {t t2 : GenericTree} {x : Nat} {p : Option Nat}
    {ind : Int} (hfl : t.free_list = []) (h : t.addNode x p = some (ind, t2)) :
    ind = (t.nodes.length : Int) := by
  unfold GenericTree.addNode at h
  split at h
  · exact absurd h (by simp)
  · obtain ⟨ip, t1, halloc, _⟩ := GenericTree.addNode_postCheck_alloc h
    exact GenericTree.addNode_alloc_fresh hfl halloc

theorem GenericTree.fromDiatomNodes_ok (ext : List Nat) :
    ∀ (l : List (String × GTDocNode)) (acc : List GenericTree.NodeInfo),
      (∀ e ∈ l, 0 ≤ e.2.node_orig_ind ∧ e.2.node_orig_ind.toNat < ext.length) →
      ∃ ns, GenericTree.fromDiatomNodes ext l acc = some ns
  | [], acc, _ => ⟨acc, rfl⟩
  | e :: rest, acc, hv => by
    have he := hv e (List.mem_cons_self e rest)
    unfold GenericTree.fromDiatomNodes
    rw [dif_pos he]
    exact GenericTree.fromDiatomNodes_ok ext rest _
      (fun d hd => hv d (List.mem_cons_of_mem e hd))

theorem GenericTree.removeNode_unlink_fails {t : GenericTree} {x : Nat}
    {i : Int} {ni pn : GenericTree.NodeInfo} (rec : Bool)
    (hi : t.indexOfNode x = i) (hne : i ≠ -1)
    (hn : vecGet t.nodes i = some ni)
    (hp : ni.index_of_parent ≠ -1)
    (hpn : vecGet t.nodes ni.index_of_parent = some pn)
    (habs : pn.children.contains i = false) :
    t.removeNode x rec = none := by
  unfold GenericTree.removeNode
  rw [hi, if_neg hne, hn]
  dsimp only
  have hstep : GenericTree.removeChild_ForNodeAtIndex ⟨t.nodes, t.free_list ++ [i]⟩
      ni.index_of_parent i = none := by
    unfold GenericTree.removeChild_ForNodeAtIndex
    rw [if_pos ⟨vecGet_bounds hpn, vecGet_bounds hn⟩]
    show (match vecGet t.nodes ni.index_of_parent with
          | none => none
          | some pn => _) = none
    rw [hpn]
    simp only [habs, Bool.false_eq_true, if_false]
  rw [if_neg hp, hstep]

theorem GenericTree_Nodeless.removeNode_silent {t : GenericTree_Nodeless}
    {i : Int} {ni pn : GenericTree_Nodeless.Node}
    (hrange : 0 < i ∧ i.toNat < t.nodes.length)
    (hn : vecGet t.nodes i = some ni)
    (hpPos : 0 < ni.parent) (hpLt : ni.parent.toNat < t.nodes.length)
    (hpn : vecGet t.nodes ni.parent = some pn)
    (habs : pn.children.contains i = false) :
    t.removeNode i false = some ⟨t.nodes, t.free_list ++ [i]⟩ := by
  unfold GenericTree_Nodeless.removeNode
  rw [if_pos hrange, hn]
  dsimp only
  have hpne : ¬(ni.parent = -1) := by omega
  have hstep : GenericTree_Nodeless.unmakeChild ⟨t.nodes, t.free_list ++ [i]⟩
      ni.parent i = some ⟨t.nodes, t.free_list ++ [i]⟩ := by
    unfold GenericTree_Nodeless.unmakeChild
    rw [if_pos ⟨⟨hpPos, hpLt⟩, hrange⟩]
    show (match vecGet t.nodes ni.parent with
          | none => none
          | some pn => _) = _
    rw [hpn]
    simp only [habs, Bool.false_eq_true, if_false]
    have hset : vecSet t.nodes ni.parent pn = some t.nodes := by
      unfold vecSet
      rw [if_pos ⟨le_of_lt hpPos, hpLt⟩]
      have : pn = t.nodes.get ⟨ni.parent.toNat, hpLt⟩ := by
        unfold vecGet at hpn
        rw [dif_pos ⟨le_of_lt hpPos, hpLt⟩] at hpn
        exact (Option.some.inj hpn).symm
      rw [this, list_set_get_self]
    rw [hset]
  rw [if_neg hpne, hstep]
  rfl

/-! ## Claim theorems -/

/-- Claim C1: the round-trip identity fails on the code.  For the Nodeless
variant's codec, encoding the spec's worked-scenario tree (free list [3, 4])
and decoding yields the same node array but free list [0, 1]: not the same
free-list membership, so slots 0 and 1 (live in T) come back freed and slots
3 and 4 come back live — the decoded tree is not indistinguishable from T.
The GenericTree<T> codec round-trips the very same state exactly, showing the
Nodeless free-list emission (which writes the loop counter instead of the
entry) is the slip. -/
theorem C1_codec_roundtrip_bug :
    GenericTree_Nodeless.fromDiatom tN.toDiatom = some ⟨tN.nodes, [0, 1]⟩ ∧
    tN.free_list = [3, 4] ∧
    GenericTree_Nodeless.fromDiatom tN.toDiatom ≠ some tN ∧
    (tG.toDiatom vecG).bind (fun d => GenericTree.fromDiatom d vecG) = some tG := by
  decide

/-- Claim C2: rebase on parentless insertion fails when the new node's slot is
recycled.  After addNode(a, null); addNode(b, null) (rebase: b at slot 1 is
root); removeNode(a, true); the free list is [0].  A further addNode(c, null)
pops slot 0, and since GenericTree<T>::addNode only then calls
indexOfTopNode(), the scan finds the NEW node at slot 0 (parent NOT_FOUND) and
links it to itself: slot 0 ends with parent 0 and children [0], and the former
root b keeps parent NOT_FOUND instead of being reparented under the new node.
The Nodeless variant records the previous top BEFORE allocating and rebases
the same shape of state correctly (last conjunct). -/
theorem C2_rebase_selflink_bug :
    ((do
        let r1 ← GenericTree.addNode ⟨[], []⟩ 10 none
        let r2 ← GenericTree.addNode r1.2 11 none
        let t3 ← GenericTree.removeNode r2.2 10 true
        GenericTree.addNode t3 12 none) =
      some (0, ⟨[⟨12, 0, [0]⟩, ⟨11, -1, []⟩], []⟩)) ∧
    (⟨[⟨12, 0, [0]⟩, ⟨11, -1, []⟩], []⟩ : GenericTree) ≠
      ⟨[⟨12, -1, [1]⟩, ⟨11, 0, []⟩], []⟩ ∧
    GenericTree_Nodeless.addNode ⟨[⟨1, []⟩, ⟨-1, []⟩], [0]⟩ (-1) =
      some (0, ⟨[⟨-1, [1]⟩, ⟨0, []⟩], []⟩) := by
  decide

/-- Claim C3: the single-root invariant is violated by a legal sequence of
public operations (every argument refers to a live node at call time, all
calls complete): addNode(a, null); addNode(b, null); removeNode(a, true);
addNode(c, null); removeNode(b, true).  The fourth call self-links the
recycled slot 0 (see C2), and after the former root b is then removed the
tree is non-empty (2 slots, 1 free entry) yet NO live slot has parent
NOT_FOUND — slot 0 is live with itself as parent — so the "exactly one when
non-empty" clause of invariant 3 fails. -/
theorem C3_invariant3_violation :
    ((do
        let r1 ← GenericTree.addNode ⟨[], []⟩ 10 none
        let r2 ← GenericTree.addNode r1.2 11 none
        let t3 ← GenericTree.removeNode r2.2 10 true
        let r4 ← GenericTree.addNode t3 12 none
        GenericTree.removeNode r4.2 11 true) =
      some (⟨[⟨12, 0, [0]⟩, ⟨11, -1, []⟩], [1]⟩ : GenericTree)) ∧
    GenericTree.isEmpty ⟨[⟨12, 0, [0]⟩, ⟨11, -1, []⟩], [1]⟩ = false ∧
    GenericTree.liveRootCount ⟨[⟨12, 0, [0]⟩, ⟨11, -1, []⟩], [1]⟩ = 0 := by
  decide

/-- Claim C5: the Nodeless encoder does not emit the free list's entries.  On
the worked-scenario state (free list [3, 4]) every slot, live and freed, is
emitted at its storage-position label n0..n5, but the free_list section's
values are the positions 0 and 1 — the loop writes its counter — instead of
the entries 3 and 4.  The GenericTree<T> encoder of the same state emits
[3, 4] as the claim states. -/
theorem C5_encode_freelist_bug :
    (tN.toDiatom).tree.map (fun e => e.1) = ["n0", "n1", "n2", "n3", "n4", "n5"] ∧
    (tN.toDiatom).free_list = [("n0", 0), ("n1", 1)] ∧
    tN.free_list = [3, 4] ∧
    (tG.toDiatom vecG).map (fun d => d.free_list) = some [("n0", 3), ("n1", 4)] ∧
    (tG.toDiatom vecG).map (fun d => d.tree.map (fun e => e.1)) =
      some ["n0", "n1", "n2", "n3", "n4", "n5"] := by
  decide

/-- Claim C6: walking an empty tree is a no-op for GenericTree<T> (no visit,
walk completes), but the Nodeless variant tests i == -1 BEFORE substituting
indexOfTopNode() for the default -2, so on an empty tree the visitor IS
invoked once, with index -1, and nodes[-1].children is then read (the walk
aborts).  Both walks are pure functions of the tree, so no invocation mutates
the state. -/
theorem C6_walk_empty_bug :
    GenericTree.walk ⟨[], []⟩ 5 (-2) = ([], true) ∧
    GenericTree_Nodeless.walk ⟨[], []⟩ 5 (-2) = ([-1], false) := by
  decide

/-- Claim C7: removeNode does not fail exactly when the index is not live.
In the Nodeless variant: the live root at slot 0 of a one-node tree is
rejected by the assert i > 0; a live child whose parent sits at slot 0 is
rejected by unmakeChild's assert parent > 0; while an in-range FREED index
passes every check and is double-freed (free list [1, 1]).  The Referential
variant checks nothing at all and also double-frees a freed index. -/
theorem C7_removeNode_liveness_checks_bug :
    GenericTree_Nodeless.removeNode ⟨[⟨-1, []⟩], []⟩ 0 false = none ∧
    GenericTree_Nodeless.indexIsInFreeList ⟨[⟨-1, []⟩], []⟩ 0 = false ∧
    GenericTree_Nodeless.removeNode ⟨[⟨-1, [1]⟩, ⟨0, []⟩], []⟩ 1 false = none ∧
    GenericTree_Nodeless.removeNode ⟨[⟨-1, []⟩, ⟨-1, []⟩], [1]⟩ 1 false =
      some ⟨[⟨-1, []⟩, ⟨-1, []⟩], [1, 1]⟩ ∧
    GenericTree_Referential.removeNode ⟨[⟨7, -1, []⟩, ⟨8, -1, []⟩], [1]⟩ 1 false =
      some ⟨[⟨7, -1, []⟩, ⟨8, -1, []⟩], [1, 1]⟩ := by
  decide

/-- Claim C8, counterexample: in the Nodeless variant, removing live slot 2
whose parent 1 does NOT list 2 among its children completes silently — the
children lists are left unchanged and only the free list grows — contradicting
the claim that the unlink step fails whenever the removed index is absent. -/
theorem C8_unlink_silent_continue_counterexample :
    GenericTree_Nodeless.removeNode tMissingLinkN 2 false =
      some ⟨tMissingLinkN.nodes, [2]⟩ := by
  decide

/-- Claim C8, amended: the unlink step fails on absence only in
GenericTree<T>::removeChild_ForNodeAtIndex (the scan's assert); in the
Nodeless variant, unmakeChild guards the erase with a found-check and
removeNode completes with the parent's children unchanged when the removed
index is absent. -/
theorem C8_unlink_amended :
    (∀ (t : GenericTree) (x : Nat) (i : Int) (ni pn : GenericTree.NodeInfo) (rec : Bool),
        t.indexOfNode x = i → i ≠ -1 →
        vecGet t.nodes i = some ni → ni.index_of_parent ≠ -1 →
        vecGet t.nodes ni.index_of_parent = some pn →
        pn.children.contains i = false →
        t.removeNode x rec = none) ∧
    (∀ (t : GenericTree_Nodeless) (i : Int) (ni pn : GenericTree_Nodeless.Node),
        0 < i ∧ i.toNat < t.nodes.length →
        vecGet t.nodes i = some ni →
        0 < ni.parent → ni.parent.toNat < t.nodes.length →
        vecGet t.nodes ni.parent = some pn →
        pn.children.contains i = false →
        t.removeNode i false = some ⟨t.nodes, t.free_list ++ [i]⟩) :=
  ⟨fun _ _ _ _ _ rec h1 h2 h3 h4 h5 h6 =>
      GenericTree.removeNode_unlink_fails rec h1 h2 h3 h4 h5 h6,
   fun _ _ _ _ h1 h2 h3 h4 h5 h6 =>
      GenericTree_Nodeless.removeNode_silent h1 h2 h3 h4 h5 h6⟩

/-- Witness for C8_unlink_amended at concrete corrupt states: GenericTree<T>
aborts removing object 41 (slot 1, parent 0, absent from 0's children), while
the Nodeless variant completes removing slot 2 (parent 1, absent from 1's
children) with only the free list extended. -/
theorem C8_unlink_amended_witness :
    GenericTree.removeNode tMissingLink 41 false = none ∧
    GenericTree_Nodeless.removeNode tMissingLinkN 2 false =
      some ⟨tMissingLinkN.nodes, tMissingLinkN.free_list ++ [2]⟩ :=
  ⟨C8_unlink_amended.1 tMissingLink 41 1 ⟨41, 0, []⟩ ⟨40, -1, []⟩ false (by decide) (by decide)
      (by decide) (by decide) (by decide) (by decide),
   C8_unlink_amended.2 tMissingLinkN 2 ⟨1, []⟩ ⟨0, []⟩ (by decide) (by decide) (by decide)
      (by decide) (by decide) (by decide)⟩

/-- Claim C4: LIFO slot reuse.  For every tree: non-recursively removing x1
(at slot a) then x2 (at slot b) pushes a then b onto the back of the free
list; the next insertion pops b, the one after pops a, and the free list is
back to its original contents; an insertion with an empty free list appends a
new slot at index nodes.size(). -/
theorem C4_lifo_reuse :
    (∀ (t t1 t2 t3 t4 : GenericTree) (x1 x2 y1 y2 : Nat) (p1 p2 : Option Nat)
        (a b i1 i2 : Int),
        t.removeNode x1 false = some t1 →
        t1.removeNode x2 false = some t2 →
        t.indexOfNode x1 = a →
        t1.indexOfNode x2 = b →
        t2.addNode y1 p1 = some (i1, t3) →
        t3.addNode y2 p2 = some (i2, t4) →
        t1.free_list = t.free_list ++ [a] ∧
        t2.free_list = t.free_list ++ [a, b] ∧
        i1 = b ∧ i2 = a ∧ t4.free_list = t.free_list) ∧
    (∀ (t t2 : GenericTree) (y : Nat) (p : Option Nat) (i : Int),
        t.free_list = [] → t.addNode y p = some (i, t2) →
        i = (t.nodes.length : Int)) := by
  constructor
  · intro t t1 t2 t3 t4 x1 x2 y1 y2 p1 p2 a b i1 i2 hr1 hr2 ha hb hadd1 hadd2
    have h1 : t1.free_list = t.free_list ++ [a] := by
      rw [← ha]
      exact GenericTree.removeNode_false_free hr1
    have h2' : t2.free_list = (t.free_list ++ [a]) ++ [b] := by
      have h := GenericTree.removeNode_false_free hr2
      rw [hb] at h
      rw [h, h1]
    obtain ⟨hi1, hf3⟩ := GenericTree.addNode_pop h2' hadd1
    obtain ⟨hi2, hf4⟩ := GenericTree.addNode_pop hf3 hadd2
    exact ⟨h1, by rw [h2']; simp, hi1, hi2, hf4⟩
  · intro t t2 y p i hfl h
    exact GenericTree.addNode_freshSlot hfl h

/-- Witness for C4_lifo_reuse: from the concrete root-with-two-children tree
tW, removing 21 (slot 1) then 22 (slot 2) and inserting twice reuses slot 2
first and slot 1 second, ending with the original (empty) free list; and
inserting into the empty tree appends at index 0 = nodes.size(). -/
theorem C4_lifo_reuse_witness :
    (tW1.free_list = tW.free_list ++ [1] ∧
     tW2.free_list = tW.free_list ++ [1, 2] ∧
     (2 : Int) = 2 ∧ (1 : Int) = 1 ∧ tW4.free_list = tW.free_list) ∧
    (0 : Int) = (((⟨[], []⟩ : GenericTree)).nodes.length : Int) :=
  ⟨C4_lifo_reuse.1 tW tW1 tW2 tW3 tW4 21 22 23 24 none none 1 2 2 1
      (by decide) (by decide) (by decide) (by decide) (by decide) (by decide),
   C4_lifo_reuse.2 ⟨[], []⟩ ⟨[⟨10, -1, []⟩], []⟩ 10 none 0 rfl (by decide)⟩

/-- Claim C9: decode defers free-list bounds validation.  (1) fromDiatom
succeeds on any document whose node records resolve within the caller's
payload vector, whatever the free_list values are — they are pushed without
any bounds check, so the rebuilt free list is exactly the document's values.
(2) The out-of-range entry is caught only later: an insertion on a tree whose
free list ends in an out-of-bounds entry pops it and fails addNode's bounds
assert. -/
theorem C9_deferred_freelist_validation :
    (∀ (d : GTDoc) (ext : List Nat),
        (∀ e ∈ d.tree, 0 ≤ e.2.node_orig_ind ∧ e.2.node_orig_ind.toNat < ext.length) →
        ∃ t, GenericTree.fromDiatom d ext = some t ∧
          t.free_list = d.free_list.map (fun e => e.2)) ∧
    (∀ (t : GenericTree) (x : Nat) (p : Option Nat) (fl : List Int) (e : Int),
        t.free_list = fl ++ [e] →
        ¬(0 ≤ e ∧ e.toNat < t.nodes.length) →
        t.nodeIsPresent x = false →
        t.addNode x p = none) := by
  constructor
  · intro d ext hv
    obtain ⟨ns, hns⟩ := GenericTree.fromDiatomNodes_ok ext d.tree [] hv
    refine ⟨⟨ns, d.free_list.map (fun e => e.2)⟩, ?_, rfl⟩
    unfold GenericTree.fromDiatom
    rw [hns]
  · intro t x p fl e hfl hoob hpres
    have halloc : ∀ ni, GenericTree.addNode_alloc t ni = none := by
      intro ni
      unfold GenericTree.addNode_alloc
      rw [hfl, List.getLast?_concat]
      try dsimp only
      rw [if_neg hoob]
    unfold GenericTree.addNode
    rw [hpres]
    simp only [Bool.false_eq_true, if_false]
    unfold GenericTree.addNode_postCheck
    split
    · rfl
    · simp only [halloc]

/-- Witness for C9_deferred_freelist_validation: the document dOOR (one valid
node record, free_list entry 99) decodes successfully to a one-slot tree with
free list [99]; a subsequent insertion on that tree fails. -/
theorem C9_deferred_freelist_validation_witness :
    (∃ t, GenericTree.fromDiatom dOOR extOOR = some t ∧
        t.free_list = dOOR.free_list.map (fun e => e.2)) ∧
    GenericTree.addNode tOOR 101 none = none :=
  ⟨C9_deferred_freelist_validation.1 dOOR extOOR (by decide),
   C9_deferred_freelist_validation.2 tOOR 101 none [] 99 rfl (by decide) (by decide)⟩

/-- Claim C10: the pointer-payload addNode's implicit precondition.  An object
that currently occupies a live slot fails the opening
assert(!nodeIsPresent(x)) — addNode aborts; an object that is absent or whose
slot has been freed passes that check (addNode proceeds to its body).  On the
concrete state tC10, object 31 still sits (stale) at slot 1, which is on the
free list, so nodeIsPresent is false and re-adding 31 under 30 succeeds,
reusing slot 1. -/
theorem C10_pointer_presence_precondition :
    (∀ (t : GenericTree) (x : Nat) (p : Option Nat),
        t.nodeIsPresent x = true → t.addNode x p = none) ∧
    (∀ (t : GenericTree) (x : Nat) (p : Option Nat),
        t.nodeIsPresent x = false →
        t.addNode x p = GenericTree.addNode_postCheck t x p) ∧
    tC10.indexOfNode 31 = 1 ∧
    tC10.indexIsInFreeList 1 = true ∧
    tC10.nodeIsPresent 31 = false ∧
    GenericTree.addNode tC10 31 (some 30) =
      some (1, ⟨[⟨30, -1, [1]⟩, ⟨31, 0, []⟩], []⟩) := by
  refine ⟨?_, ?_, by decide, by decide, by decide, by decide⟩
  · intro t x p h
    simp [GenericTree.addNode, h]
  · intro t x p h
    simp [GenericTree.addNode, h]

/-- Witness for C10_pointer_presence_precondition: adding the live object 40
to its own one-node tree aborts; adding the freed object 31 to tC10 proceeds
past the presence check. -/
theorem C10_pointer_presence_precondition_witness :
    GenericTree.addNode ⟨[⟨40, -1, []⟩], []⟩ 40 none = none ∧
    GenericTree.addNode tC10 31 (some 30) =
      GenericTree.addNode_postCheck tC10 31 (some 30) :=
  ⟨C10_pointer_presence_precondition.1 ⟨[⟨40, -1, []⟩], []⟩ 40 none (by decide),
   C10_pointer_presence_precondition.2.1 tC10 31 (some 30) (by decide)⟩
